import Mathlib

/-!
Shallow embedding of the begin-cli Cardano chain adapter
(`src/chains/cardano.rs`, `src/chains/mod.rs`) and the relevant command
dispatch code (`src/commands/balance.rs`, `src/commands/import.rs`,
`src/commands/new_wallet.rs`, `src/commands/send.rs`), together with
theorems settling the frozen claims about the natural-language
specification.

Strings are modelled with Lean `String`; the addresses, units and
quantities handled by the program are ASCII, for which Rust's byte
lengths and byte slicing agree with Lean's character counts and
`String.take`.  Machine integers are `Nat` with explicit reductions
modulo 256 or comparisons against 2 ^ 64 where Rust wraps or overflows.
-/

namespace BeginCli

set_option maxRecDepth 100000

/-- `TokenBalance` of `src/chains/mod.rs`: symbol, raw amount string and
optional policy id of a native token. -/
structure TokenBalance where
  symbol : String
  amount : String
  policy_id : Option String
deriving DecidableEq, Repr

/-- `Balance` of `src/chains/mod.rs`: native symbol, human-readable native
amount, and the list of additional tokens. -/
structure Balance where
  symbol : String
  amount : String
  tokens : List TokenBalance
deriving DecidableEq, Repr

/-- `TransactionStatus` of `src/chains/mod.rs`. -/
inductive TransactionStatus where
  | Pending : TransactionStatus
  | Confirmed : TransactionStatus
  | Failed : String → TransactionStatus
deriving DecidableEq, Repr

/-- `TransactionResult` of `src/chains/mod.rs`. -/
structure TransactionResult where
  tx_hash : String
  status : TransactionStatus
deriving DecidableEq, Repr

/-- One entry of the Blockfrost response body (`BlockfrostAmount` in
`src/chains/cardano.rs`): a unit name and a decimal quantity string. -/
structure BlockfrostAmount where
  unit : String
  quantity : String
deriving DecidableEq, Repr

/-- Rust `str::starts_with`, on the character sequences of the two strings
(identical to the byte comparison on the ASCII data handled here). -/
def strStarts (s p : String) : Bool :=
  p.data.isPrefixOf s.data

/-- `Cardano::validate_address` (`src/chains/cardano.rs` lines 150-158):
prefix `addr1` or `addr_test1`, and length between 50 and 120 inclusive. -/
def validate_address (address : String) : Bool :=
  (strStarts address "addr1" || strStarts address "addr_test1")
    && (decide (50 ≤ address.length) && decide (address.length ≤ 120))

/-- A syntactically valid mainnet address used to instantiate theorems at
concrete inputs: `addr1` followed by 96 hex characters (101 characters). -/
def testAddr : String := "addr1" ++ String.mk (List.replicate 96 'f')

theorem testAddr_valid : validate_address testAddr = true := by decide

/-- C6: `validate_address` is a pure function of the address string, true
exactly when the address starts with `addr1` or `addr_test1` and its length
lies in 50..120 inclusive; the four example addresses of the spec evaluate
as the spec states. -/
theorem C6_validate_address_characterisation :
    (∀ a : String, validate_address a = true ↔
      ((strStarts a "addr1" = true ∨ strStarts a "addr_test1" = true)
        ∧ 50 ≤ a.length ∧ a.length ≤ 120))
    ∧ validate_address ("addr1" ++ String.mk (List.replicate 96 'f')) = true
    ∧ validate_address ("addr_test1" ++ String.mk (List.replicate 93 'f')) = true
    ∧ validate_address "bc1qar0srrr7xfkvy5l643lydnw9re59gtzzwf5mdq" = false
    ∧ validate_address "invalid" = false := by
  refine ⟨fun a => ?_, by decide, by decide, by decide, by decide⟩
  simp [validate_address, Bool.and_eq_true, Bool.or_eq_true,
    decide_eq_true_iff, and_assoc]

/-- Rust `str::parse::<u64>()` as used on a quantity string: an optional
leading `+`, then one or more ASCII digits, value below 2 ^ 64; `none` on
any malformed or overflowing input (the source then takes 0 via
`unwrap_or(0)`). -/
def parseU64 (s : String) : Option Nat :=
  let t := if strStarts s "+" then s.drop 1 else s
  if t.data = [] then none
  else if t.data.all Char.isDigit then
    let n := t.data.foldl (fun acc c => acc * 10 + (c.toNat - 48)) 0
    if n < 2 ^ 64 then some n else none
  else none

/-- Left-pad a digit string with zeros to width `w`. -/
def zeroPad (w : Nat) (s : String) : String :=
  String.mk (List.replicate (w - s.length) '0') ++ s

/-- The lovelace-to-ADA rendering of `src/chains/cardano.rs` lines 115-117:
the source computes `lovelace as f64 / 1_000_000.0` and formats it with six
fixed decimal digits.  Modelled as exact decimal division by 10 ^ 6 with a
six-digit fraction, which yields the same digit string as the
double-precision computation for every quantity below 2 ^ 52 (in
particular for all quantities appearing in the claims). -/
def formatAda (lovelace : Nat) : String :=
  toString (lovelace / 1000000) ++ "." ++ zeroPad 6 (toString (lovelace % 1000000))

/-- `shorten_asset_name` (`src/chains/cardano.rs` lines 200-206): units
longer than 20 characters are cut to their first 16 characters plus an
ellipsis marker. -/
def shorten_asset_name (unit : String) : String :=
  if 20 < unit.length then unit.take 16 ++ "..." else unit

/-- The `TokenBalance` built for one non-lovelace entry in the loop of
`get_balance` (`src/chains/cardano.rs` lines 118-131): the policy id is the
first 56 characters when the unit is at least 56 characters long. -/
def mkToken (a : BlockfrostAmount) : TokenBalance :=
  { symbol := shorten_asset_name a.unit
    amount := a.quantity
    policy_id := if 56 ≤ a.unit.length then some (a.unit.take 56) else none }

/-- One iteration of the `for amount in data.amount` loop of `get_balance`
(`src/chains/cardano.rs` lines 112-132), on the state (current ADA amount
string, tokens collected so far): a `lovelace` entry overwrites the ADA
amount with the six-decimal rendering of its parsed quantity (0 on parse
failure); every other entry appends a `TokenBalance`. -/
def balanceStep (acc : String × List TokenBalance) (a : BlockfrostAmount) :
    String × List TokenBalance :=
  if a.unit = "lovelace" then
    (formatAda ((parseU64 a.quantity).getD 0), acc.2)
  else
    (acc.1, acc.2 ++ [mkToken a])

/-- The missing-credential message of `src/chains/cardano.rs` lines 99-103. -/
def blockfrost_key_msg : String :=
  "Blockfrost API key not configured.\nSet BLOCKFROST_API_KEY environment variable.\nGet a free key at: https://blockfrost.io"

/-- Outcome of one `get_balance` call: how many HTTP requests the call
issued to the indexer (`blockfrost_get` is the only request site) and its
result. -/
structure BalanceCall where
  requests : Nat
  result : Except String Balance
deriving Repr

/-- `Cardano::get_balance` (`src/chains/cardano.rs` lines 91-139).  The
adapter state is the optional API key; the network fetch is represented by
the already-decoded response body `response` (a successful
`blockfrost_get`), and `requests` counts the requests issued: the two
`bail!` guards return before `blockfrost_get` runs. -/
def get_balance (api_key : Option String) (address : String)
    (response : List BlockfrostAmount) : BalanceCall :=
  if validate_address address = false then
    { requests := 0, result := .error "Invalid Cardano address format" }
  else if api_key.isNone then
    { requests := 0, result := .error blockfrost_key_msg }
  else
    let acc := response.foldl balanceStep ("0", [])
    { requests := 1, result := .ok { symbol := "ADA", amount := acc.1, tokens := acc.2 } }

/-- `Cardano::send` (`src/chains/cardano.rs` lines 141-148): a placeholder
that ignores its arguments and returns a `Failed` status. -/
def send ( _to : String) (_amount : String) (_private_key : List Nat) :
    Except String TransactionResult :=
  .ok { tx_hash := "not_implemented"
        status := .Failed "Send not yet implemented" }

example : formatAda 1500000 = "1.500000" := by decide
example : formatAda 0 = "0.000000" := by decide
example : parseU64 "1500000" = some 1500000 := by decide
example : parseU64 "12x4" = none := by decide

theorem foldl_fst_of_no_lovelace (l : List BlockfrostAmount)
    (s : String) (ts : List TokenBalance)
    (h : ∀ a ∈ l, a.unit ≠ "lovelace") :
    (l.foldl balanceStep (s, ts)).1 = s := by
  induction l generalizing s ts with
  | nil => rfl
  | cons a l ih =>
    have ha : a.unit ≠ "lovelace" := h a (List.mem_cons_self a l)
    simp only [List.foldl_cons, balanceStep, if_neg ha]
    exact ih s (ts ++ [mkToken a]) fun b hb => h b (List.mem_cons_of_mem a hb)

theorem foldl_snd_of_no_lovelace (l : List BlockfrostAmount)
    (s : String) (ts : List TokenBalance)
    (h : ∀ a ∈ l, a.unit ≠ "lovelace") :
    (l.foldl balanceStep (s, ts)).2 = ts ++ l.map mkToken := by
  induction l generalizing s ts with
  | nil => simp
  | cons a l ih =>
    have ha : a.unit ≠ "lovelace" := h a (List.mem_cons_self a l)
    simp only [List.foldl_cons, balanceStep, if_neg ha, List.map_cons]
    rw [ih s (ts ++ [mkToken a]) fun b hb => h b (List.mem_cons_of_mem a hb)]
    simp

theorem mem_foldl_tokens (l : List BlockfrostAmount)
    (s : String) (ts : List TokenBalance) (x : TokenBalance)
    (hx : x ∈ ts) : x ∈ (l.foldl balanceStep (s, ts)).2 := by
  induction l generalizing s ts with
  | nil => exact hx
  | cons a l ih =>
    simp only [List.foldl_cons, balanceStep]
    by_cases ha : a.unit = "lovelace"
    · rw [if_pos ha]; exact ih _ _ hx
    · rw [if_neg ha]; exact ih _ _ (List.mem_append_left _ hx)

theorem mem_foldl_tokens_of_mem (l : List BlockfrostAmount)
    (s : String) (ts : List TokenBalance) (e : BlockfrostAmount)
    (he : e ∈ l) (hu : e.unit ≠ "lovelace") :
    mkToken e ∈ (l.foldl balanceStep (s, ts)).2 := by
  induction l generalizing s ts with
  | nil => cases he
  | cons a l ih =>
    simp only [List.foldl_cons, balanceStep]
    rcases List.mem_cons.mp he with rfl | he'
    · rw [if_neg hu]
      exact mem_foldl_tokens l _ _ _ (List.mem_append_right _ (List.mem_singleton.mpr rfl))
    · by_cases ha : a.unit = "lovelace"
      · rw [if_pos ha]; exact ih _ _ he'
      · rw [if_neg ha]; exact ih _ _ he'

theorem get_balance_last_lovelace (k addr q : String)
    (xs ys : List BlockfrostAmount)
    (haddr : validate_address addr = true)
    (hys : ∀ a ∈ ys, a.unit ≠ "lovelace") :
    ∃ ts, get_balance (some k) addr (xs ++ ⟨"lovelace", q⟩ :: ys) =
      { requests := 1
        result := .ok { symbol := "ADA"
                        amount := formatAda ((parseU64 q).getD 0)
                        tokens := ts } } := by
  refine ⟨((xs ++ (⟨"lovelace", q⟩ : BlockfrostAmount) :: ys).foldl
      balanceStep ("0", [])).2, ?_⟩
  have hv : ¬ validate_address addr = false := by simp [haddr]
  simp only [get_balance, if_neg hv, Option.isNone_some, Bool.false_eq_true,
    if_neg, if_false]
  have hfst : ((xs ++ (⟨"lovelace", q⟩ : BlockfrostAmount) :: ys).foldl
      balanceStep ("0", [])).1 = formatAda ((parseU64 q).getD 0) := by
    rw [List.foldl_append, List.foldl_cons]
    show (ys.foldl balanceStep (balanceStep _ ⟨"lovelace", q⟩)).1 = _
    rw [balanceStep, if_pos rfl]
    exact foldl_fst_of_no_lovelace ys _ _ hys
  rw [← hfst]

/-- C2's counterexample: a response that contains a lovelace entry with
quantity `1500000` but whose later lovelace entry overwrites the ADA
amount, so `get_balance` does not return `1.500000`. -/
theorem C2_duplicate_lovelace_cex :
    (⟨"lovelace", "1500000"⟩ : BlockfrostAmount) ∈
      [(⟨"lovelace", "1500000"⟩ : BlockfrostAmount), ⟨"lovelace", "2000000"⟩]
    ∧ (get_balance (some "key") testAddr
        [⟨"lovelace", "1500000"⟩, ⟨"lovelace", "2000000"⟩]).result =
      .ok { symbol := "ADA", amount := "2.000000", tokens := [] }
    ∧ ("2.000000" : String) ≠ "1.500000" := by
  refine ⟨List.mem_cons_self _ _, by rfl, by decide⟩

/-- C2 amended: when the **last** lovelace entry of the response has
quantity `1500000` (in particular when the response contains exactly one
lovelace entry, with that quantity), `get_balance` on a valid address with
a configured key returns symbol `ADA` and native amount `1.500000`. -/
theorem C2_last_lovelace_amount (k addr : String)
    (xs ys : List BlockfrostAmount)
    (haddr : validate_address addr = true)
    (hys : ∀ a ∈ ys, a.unit ≠ "lovelace") :
    ∃ ts, (get_balance (some k) addr
        (xs ++ ⟨"lovelace", "1500000"⟩ :: ys)).result =
      .ok { symbol := "ADA", amount := "1.500000", tokens := ts } := by
  obtain ⟨ts, h⟩ := get_balance_last_lovelace k addr "1500000" xs ys haddr hys
  refine ⟨ts, ?_⟩
  rw [h]
  have : formatAda ((parseU64 "1500000").getD 0) = "1.500000" := by decide
  rw [this]

/-- Witness for C2's amended theorem at the concrete single-entry response
of the spec. -/
theorem C2_last_lovelace_witness :
    ∃ ts, (get_balance (some "key") testAddr
        [⟨"lovelace", "1500000"⟩]).result =
      .ok { symbol := "ADA", amount := "1.500000", tokens := ts } :=
  C2_last_lovelace_amount "key" testAddr [] [] (by decide) (by simp)

/-- If a `get_balance` call produced `.ok b`, then `b` is the balance built
by the response fold (the two guards return errors). -/
theorem get_balance_ok_inv (k addr : String)
    (resp : List BlockfrostAmount) (b : Balance)
    (hok : (get_balance (some k) addr resp).result = .ok b) :
    b = { symbol := "ADA"
          amount := (resp.foldl balanceStep ("0", [])).1
          tokens := (resp.foldl balanceStep ("0", [])).2 } := by
  by_cases hv : validate_address addr = false
  · rw [get_balance, if_pos hv] at hok
    cases hok
  · rw [get_balance, if_neg hv] at hok
    simp only [Option.isNone_some, Bool.false_eq_true, if_false] at hok
    cases hok
    rfl

/-- C3: every non-lovelace response entry whose unit has at least 70
characters yields, in the tokens of a successful `get_balance` result, a
`TokenBalance` whose symbol is the unit's first 16 characters followed by
the ellipsis marker, whose amount is the raw quantity string, and whose
policy id is `some` of the unit's first 56 characters. -/
theorem C3_long_unit_token (k addr : String)
    (resp : List BlockfrostAmount) (e : BlockfrostAmount) (b : Balance)
    (hok : (get_balance (some k) addr resp).result = .ok b)
    (he : e ∈ resp) (hu : e.unit ≠ "lovelace") (hlen : 70 ≤ e.unit.length) :
    ({ symbol := e.unit.take 16 ++ "..."
       amount := e.quantity
       policy_id := some (e.unit.take 56) } : TokenBalance) ∈ b.tokens := by
  have hb := get_balance_ok_inv k addr resp b hok
  have hmk : mkToken e =
      { symbol := e.unit.take 16 ++ "..."
        amount := e.quantity
        policy_id := some (e.unit.take 56) } := by
    have h20 : 20 < e.unit.length := lt_of_lt_of_le (by norm_num) hlen
    have h56 : 56 ≤ e.unit.length := le_trans (by norm_num) hlen
    rw [mkToken, shorten_asset_name, if_pos h20, if_pos h56]
  rw [hb, ← hmk]
  exact mem_foldl_tokens_of_mem resp _ _ e he hu

/-- Witness for C3 at a concrete response with one 70-character unit. -/
theorem C3_long_unit_witness :
    ({ symbol := String.mk (List.replicate 16 'a') ++ "..."
       amount := "42"
       policy_id := some (String.mk (List.replicate 56 'a')) } : TokenBalance) ∈
      (Balance.mk "ADA" "0" [mkToken ⟨String.mk (List.replicate 70 'a'), "42"⟩]).tokens := by
  have h := C3_long_unit_token "key" testAddr
      [⟨String.mk (List.replicate 70 'a'), "42"⟩]
      ⟨String.mk (List.replicate 70 'a'), "42"⟩
      (Balance.mk "ADA" "0" [mkToken ⟨String.mk (List.replicate 70 'a'), "42"⟩])
      (by rfl) (List.mem_singleton.mpr rfl) (by decide) (by decide)
  simpa using h

/-- C4's counterexample: a malformed lovelace quantity is treated as zero,
but the call result is indistinguishable from the result for a genuine
zero-lovelace response — no error note of any kind accompanies it. -/
theorem C4_no_error_note_cex :
    (get_balance (some "key") testAddr [⟨"lovelace", "12x4"⟩]).result =
      .ok { symbol := "ADA", amount := "0.000000", tokens := [] }
    ∧ get_balance (some "key") testAddr [⟨"lovelace", "12x4"⟩] =
      get_balance (some "key") testAddr [⟨"lovelace", "0"⟩] := by
  exact ⟨by rfl, by rfl⟩

/-- C4 amended: a malformed or non-numeric quantity on the (last) lovelace
entry does not fail the response: `get_balance` succeeds and the quantity
is treated as zero (rendered `0.000000`); no error note accompanies the
result (the `Balance` type carries none, as the counterexample shows). -/
theorem C4_malformed_quantity_zero (k addr q : String)
    (xs ys : List BlockfrostAmount)
    (haddr : validate_address addr = true)
    (hys : ∀ a ∈ ys, a.unit ≠ "lovelace")
    (hq : parseU64 q = none) :
    ∃ ts, (get_balance (some k) addr
        (xs ++ ⟨"lovelace", q⟩ :: ys)).result =
      .ok { symbol := "ADA", amount := "0.000000", tokens := ts } := by
  obtain ⟨ts, h⟩ := get_balance_last_lovelace k addr q xs ys haddr hys
  refine ⟨ts, ?_⟩
  rw [h, hq]
  rfl

/-- Witness for C4's amended theorem at a concrete malformed quantity. -/
theorem C4_malformed_quantity_witness :
    ∃ ts, (get_balance (some "key") testAddr
        [⟨"lovelace", "12x4"⟩]).result =
      .ok { symbol := "ADA", amount := "0.000000", tokens := ts } :=
  C4_malformed_quantity_zero "key" testAddr "12x4" [] [] (by decide)
    (by simp) (by decide)

/-- C5: with no API key configured, `get_balance` on any syntactically
valid address fails with the missing-credential message (which carries the
operator guidance) and issues zero network requests, whatever the indexer
would have answered. -/
theorem C5_missing_key_no_request (addr : String)
    (resp : List BlockfrostAmount)
    (haddr : validate_address addr = true) :
    get_balance none addr resp =
      { requests := 0, result := .error blockfrost_key_msg } := by
  have hv : ¬ validate_address addr = false := by simp [haddr]
  rw [get_balance, if_neg hv]
  rfl

/-- Witness for C5 at a concrete valid address. -/
theorem C5_missing_key_witness :
    get_balance none testAddr [⟨"lovelace", "1500000"⟩] =
      { requests := 0, result := .error blockfrost_key_msg } :=
  C5_missing_key_no_request testAddr [⟨"lovelace", "1500000"⟩] (by decide)

/-- C10: when the response has no lovelace entry, `get_balance` succeeds
with the initial amount string `0` — not the six-decimal rendering
`0.000000` — symbol `ADA`, and one token per remaining entry. -/
theorem C10_no_lovelace_amount_zero (k addr : String)
    (resp : List BlockfrostAmount)
    (haddr : validate_address addr = true)
    (hres : ∀ a ∈ resp, a.unit ≠ "lovelace") :
    (get_balance (some k) addr resp).result =
      .ok { symbol := "ADA", amount := "0", tokens := resp.map mkToken }
    ∧ ("0" : String) ≠ "0.000000" := by
  constructor
  · have hv : ¬ validate_address addr = false := by simp [haddr]
    rw [get_balance, if_neg hv]
    simp only [Option.isNone_some, Bool.false_eq_true, if_false]
    rw [show (resp.foldl balanceStep ("0", [])).1 = "0" from
        foldl_fst_of_no_lovelace resp _ _ hres,
      show (resp.foldl balanceStep ("0", [])).2 = resp.map mkToken from by
        rw [foldl_snd_of_no_lovelace resp _ _ hres]; rfl]
  · decide

/-- Witness for C10 at a concrete lovelace-free response. -/
theorem C10_no_lovelace_witness :
    (get_balance (some "key") testAddr [⟨"ab", "7"⟩]).result =
      .ok { symbol := "ADA", amount := "0"
            tokens := [⟨"ab", "7", none⟩] }
    ∧ ("0" : String) ≠ "0.000000" := by
  have h := C10_no_lovelace_amount_zero "key" testAddr [⟨"ab", "7"⟩]
    (by decide) (by decide)
  exact ⟨h.1, h.2⟩

/-- C7: the Cardano `send` returns, for every input, a result whose status
is the terminal `Failed` variant with the "not implemented" reason; that
status is neither `Pending` nor `Confirmed`, so the stub never pretends
success. -/
theorem C7_send_not_implemented (toAddr amount : String) (pk : List Nat) :
    send toAddr amount pk =
      .ok { tx_hash := "not_implemented"
            status := .Failed "Send not yet implemented" }
    ∧ (TransactionStatus.Failed "Send not yet implemented" ≠ .Pending)
    ∧ (TransactionStatus.Failed "Send not yet implemented" ≠ .Confirmed) :=
  ⟨rfl, by decide, by decide⟩

/-- Rust `str::to_lowercase` on the ASCII chain identifiers handled here,
modelled as a character-wise lowering. -/
def toLowerStr (s : String) : String :=
  String.mk (s.data.map Char.toLower)

/-- `get_chain` (`src/commands/balance.rs` lines 45-52): the balance
command's chain resolution; the adapter itself is elided to `Unit`. -/
def get_chain (name : String) : Except String Unit :=
  let n := toLowerStr name
  if n = "cardano" ∨ n = "ada" then .ok ()
  else if n = "bitcoin" ∨ n = "btc" then .error "Bitcoin support coming soon"
  else if n = "solana" ∨ n = "sol" then .error "Solana support coming soon"
  else .error ("Unknown chain: " ++ name ++ ". Supported: cardano, bitcoin, solana")

/-- The chain dispatch of `execute` in `src/commands/import.rs` lines
10-17. -/
def wallet_import_resolve (chain : String) : Except String Unit :=
  let n := toLowerStr chain
  if n = "cardano" ∨ n = "ada" then .ok ()
  else if n = "bitcoin" ∨ n = "btc" then .error "Bitcoin wallet import coming soon"
  else if n = "solana" ∨ n = "sol" then .error "Solana wallet import coming soon"
  else .error ("Unknown chain: " ++ chain)

/-- The chain dispatch of `execute` in `src/commands/new_wallet.rs` lines
10-17. -/
def new_wallet_resolve (chain : String) : Except String Unit :=
  let n := toLowerStr chain
  if n = "cardano" ∨ n = "ada" then .ok ()
  else if n = "bitcoin" ∨ n = "btc" then .error "Bitcoin wallet generation coming soon"
  else if n = "solana" ∨ n = "sol" then .error "Solana wallet generation coming soon"
  else .error ("Unknown chain: " ++ chain)

/-- The chain dispatch of `execute` in `src/commands/send.rs` lines 14-34
(reached once the amount argument has parsed as a positive number). -/
def send_chain_resolve (chain : String) : Except String Unit :=
  let n := toLowerStr chain
  if n = "cardano" ∨ n = "ada" then .ok ()
  else if n = "bitcoin" ∨ n = "btc" then .error "Bitcoin support coming soon"
  else if n = "solana" ∨ n = "sol" then .error "Solana support coming soon"
  else .error ("Unknown chain: " ++ chain)

/-- Substring test `sub` inside `s`, on the character sequences. -/
def containsSub (s sub : String) : Bool :=
  decide (sub.data <:+: s.data)

/-- C9's counterexample: with the unknown identifier `dogecoin`, the import
command's error names only the chain — it does not list the supported set
(no mention of `solana`), while the balance command's error does. -/
theorem C9_no_supported_list_cex :
    wallet_import_resolve "dogecoin" = .error "Unknown chain: dogecoin"
    ∧ containsSub "Unknown chain: dogecoin" "solana" = false
    ∧ get_chain "dogecoin" =
        .error "Unknown chain: dogecoin. Supported: cardano, bitcoin, solana"
    ∧ containsSub "Unknown chain: dogecoin. Supported: cardano, bitcoin, solana"
        "solana" = true :=
  ⟨rfl, by decide, rfl, by decide⟩

/-- C9 amended: every identifier matching no known chain name or symbol
case-insensitively fails in all four commands with an unknown-chain error
naming the identifier; the balance command's error additionally lists the
supported set, while the import, new and send errors do not include the
list. -/
theorem C9_unknown_chain_errors (s : String)
    (h1 : toLowerStr s ≠ "cardano") (h2 : toLowerStr s ≠ "ada")
    (h3 : toLowerStr s ≠ "bitcoin") (h4 : toLowerStr s ≠ "btc")
    (h5 : toLowerStr s ≠ "solana") (h6 : toLowerStr s ≠ "sol") :
    get_chain s =
      .error ("Unknown chain: " ++ s ++ ". Supported: cardano, bitcoin, solana")
    ∧ wallet_import_resolve s = .error ("Unknown chain: " ++ s)
    ∧ new_wallet_resolve s = .error ("Unknown chain: " ++ s)
    ∧ send_chain_resolve s = .error ("Unknown chain: " ++ s) := by
  refine ⟨?_, ?_, ?_, ?_⟩ <;>
    simp [get_chain, wallet_import_resolve, new_wallet_resolve,
      send_chain_resolve, h1, h2, h3, h4, h5, h6]

/-- Witness for C9's amended theorem at the identifier `dogecoin`. -/
theorem C9_unknown_chain_witness :
    get_chain "dogecoin" =
      .error "Unknown chain: dogecoin. Supported: cardano, bitcoin, solana"
    ∧ wallet_import_resolve "dogecoin" = .error "Unknown chain: dogecoin"
    ∧ new_wallet_resolve "dogecoin" = .error "Unknown chain: dogecoin"
    ∧ send_chain_resolve "dogecoin" = .error "Unknown chain: dogecoin" :=
  C9_unknown_chain_errors "dogecoin" (by decide) (by decide) (by decide)
    (by decide) (by decide) (by decide)

/-- Rust `str::split_whitespace` on the character sequence: maximal runs of
non-whitespace characters, empty runs skipped. -/
def split_wordsAux : List Char → List Char → List String
  | [], acc => if acc = [] then [] else [String.mk acc.reverse]
  | c :: cs, acc =>
    if c.isWhitespace then
      if acc = [] then split_wordsAux cs []
      else String.mk acc.reverse :: split_wordsAux cs []
    else split_wordsAux cs (c :: acc)

/-- The whitespace-separated words of a phrase. -/
def split_words (phrase : String) : List String :=
  split_wordsAux phrase.data []

/-- `phrase.split_whitespace().count()` of `src/commands/import.rs` line
37. -/
def word_count (phrase : String) : Nat :=
  (split_words phrase).length

/-- Modelled from the spec: the bip39 crate's `Mnemonic` parse invoked by
`derive_address_from_mnemonic` (`src/chains/cardano.rs` line 166) is
external library code not under src/; per §4.1 it accepts a phrase exactly
when the word count is 12, 15 or 24, every word belongs to the fixed
wordlist, and the embedded checksum matches.  The wordlist and the checksum
predicate are parameters of the model. -/
def bip39_parse (wordlist : List String) (checksumOk : String → Bool)
    (phrase : String) : Option String :=
  let ws := split_words phrase
  if (ws.length = 12 ∨ ws.length = 15 ∨ ws.length = 24)
      ∧ (∀ w ∈ ws, w ∈ wordlist) ∧ checksumOk phrase = true
  then some phrase else none

/-- The mnemonic validation performed by `import_cardano_wallet`
(`src/commands/import.rs` lines 36-43): the command's own word-count check
with its error message, then the mnemonic parse inside
`derive_address_from_mnemonic` (whose library error text is elided). -/
def import_phrase_validate (parseMn : String → Option String)
    (phrase : String) : Except String Unit :=
  let wc := word_count phrase
  if wc ≠ 24 ∧ wc ≠ 12 ∧ wc ≠ 15 then
    .error ("Invalid recovery phrase. Expected 12, 15, or 24 words, got "
      ++ toString wc)
  else
    match parseMn phrase with
    | none => .error "Invalid mnemonic"
    | some _ => .ok ()

/-- C8: the import validation fails with the invalid-word-count error for
every phrase whose word count is outside 12/15/24, and succeeds for every
phrase with an accepted word count whose words are all in the wordlist and
whose checksum matches. -/
theorem C8_word_count_validation (wordlist : List String)
    (checksumOk : String → Bool) (phrase : String) :
    (¬ (word_count phrase = 12 ∨ word_count phrase = 15
          ∨ word_count phrase = 24) →
      import_phrase_validate (bip39_parse wordlist checksumOk) phrase =
        .error ("Invalid recovery phrase. Expected 12, 15, or 24 words, got "
          ++ toString (word_count phrase)))
    ∧ ((word_count phrase = 12 ∨ word_count phrase = 15
          ∨ word_count phrase = 24) →
      (∀ w ∈ split_words phrase, w ∈ wordlist) →
      checksumOk phrase = true →
      import_phrase_validate (bip39_parse wordlist checksumOk) phrase =
        .ok ()) := by
  constructor
  · intro h
    push_neg at h
    rw [import_phrase_validate, if_pos ⟨h.2.2, h.1, h.2.1⟩]
  · intro hwc hall hck
    have hnot : ¬ (word_count phrase ≠ 24 ∧ word_count phrase ≠ 12
        ∧ word_count phrase ≠ 15) := by
      rcases hwc with h | h | h <;> simp [h]
    rw [import_phrase_validate, if_neg hnot]
    have : bip39_parse wordlist checksumOk phrase = some phrase := by
      rw [bip39_parse, if_pos ⟨hwc, hall, hck⟩]
    simp [this]

/-- Witness for C8 at a 3-word phrase (rejected with the word-count error)
and a 12-word phrase over a one-word list with a trivially satisfied
checksum (accepted). -/
theorem C8_word_count_witness :
    import_phrase_validate (bip39_parse ["abandon"] (fun _ => true))
      "one two three" =
      .error "Invalid recovery phrase. Expected 12, 15, or 24 words, got 3"
    ∧ import_phrase_validate (bip39_parse ["abandon"] (fun _ => true))
      "abandon abandon abandon abandon abandon abandon abandon abandon abandon abandon abandon abandon" =
      .ok () := by
  have h1 := (C8_word_count_validation ["abandon"] (fun _ => true)
    "one two three").1 (by decide)
  have h2 := (C8_word_count_validation ["abandon"] (fun _ => true)
    "abandon abandon abandon abandon abandon abandon abandon abandon abandon abandon abandon abandon").2
    (by decide) (by decide) rfl
  exact ⟨h1, h2⟩

/-- `simple_hash` (`src/chains/cardano.rs` lines 190-198): a 64-byte state,
xor of each input byte at index `i % 64` then wrapping add at
`(i + 17) % 64`.  Bytes are `Nat` reduced modulo 256 where the source
wraps. -/
def simple_hash (input : List Nat) : List Nat :=
  input.enum.foldl
    (fun result ib =>
      let i := ib.1
      let byte := ib.2
      let r1 := result.set (i % 64) ((result.getD (i % 64) 0) ^^^ byte)
      r1.set ((i + 17) % 64) (((r1.getD ((i + 17) % 64) 0) + byte) % 256))
    (List.replicate 64 0)

/-- One lowercase hex digit. -/
def hexDigit (n : Nat) : Char :=
  if n < 10 then Char.ofNat (48 + n) else Char.ofNat (87 + n)

/-- Rust `hex::encode`: two lowercase hex digits per byte. -/
def hexEncode (bytes : List Nat) : String :=
  String.mk (bytes.foldr
    (fun b acc => hexDigit (b / 16 % 16) :: hexDigit (b % 16) :: acc) [])

/-- `derive_address_from_mnemonic` (`src/chains/cardano.rs` lines
162-188): parse the phrase, stretch it to a seed with the empty passphrase,
hash the first 32 seed bytes with `simple_hash` and render `addr1qx`
followed by the hex encoding of the first 50 hash bytes.  The bip39 parse
and `to_seed` are external library code not under src/, modelled as
parameters (the spec requires both to be deterministic functions of their
arguments). -/
def derive_address_from_mnemonic (parseMn : String → Option String)
    (toSeed : String → String → List Nat) (mnemonic : String) :
    Except String String :=
  match parseMn mnemonic with
  | none => .error "Invalid mnemonic"
  | some m =>
    let seed := toSeed m ""
    let hash := simple_hash (seed.take 32)
    .ok ("addr1qx" ++ hexEncode (hash.take 50))

/-- C1: address derivation is deterministic — for every phrase that parses
successfully, any two calls of `derive_address_from_mnemonic` (whatever the
instantiation of the external codec) return byte-identical address
strings; the passphrase is fixed to the empty string inside the
definition, so the phrase is the only input. -/
theorem C1_derive_address_deterministic
    (parseMn : String → Option String)
    (toSeed : String → String → List Nat)
    (p a₁ a₂ : String)
    (h₁ : derive_address_from_mnemonic parseMn toSeed p = .ok a₁)
    (h₂ : derive_address_from_mnemonic parseMn toSeed p = .ok a₂) :
    a₁ = a₂ := by
  rw [h₁] at h₂
  cases h₂
  rfl

/-- Witness for C1 at a concrete phrase and a concrete codec
instantiation: both calls return the same literal address. -/
theorem C1_derive_witness :
    derive_address_from_mnemonic (fun s => some s)
      (fun m _ => m.data.map Char.toNat) "test phrase" =
      .ok "addr1qx7465737420706872617365000000000000746573742070687261736500000000000000000000000000000000000000000000"
    ∧ ("addr1qx7465737420706872617365000000000000746573742070687261736500000000000000000000000000000000000000000000" : String) =
      "addr1qx7465737420706872617365000000000000746573742070687261736500000000000000000000000000000000000000000000" :=
  ⟨by rfl,
    C1_derive_address_deterministic (fun s => some s)
      (fun m _ => m.data.map Char.toNat) "test phrase" _ _ (by rfl) (by rfl)⟩

end BeginCli
